import Mathlib

/-!
Verification of the nutrient-aggregation and goal-tracking engine of a
small food-tracker application (src/app.py).

Modelling conventions.

Numeric values: the source computes with floating-point numbers; claims
about the arithmetic are about the real-arithmetic content of the
algorithms, so ordinary values are modelled as rationals.  A separate
small IEEE-style value type FVal (finite, plus-infinity, minus-infinity,
not-a-number) models the special values that a division by a zero
base_amount produces; with it the scaler is re-embedded as
compute_nutrientsF for the claims about non-finite results.

Dates: the log stores pandas timestamps.  A timestamp is modelled as a
rational number of days since an epoch: its floor is the calendar-day
component and its fractional part the time of day.  Converting a
calendar day d to a timestamp (pd.to_datetime) yields the midnight
timestamp, the integer cast of d.

Data frames: a data frame of rows is modelled as a list of structures;
pandas filtering is List.filter, column sums are sums of mapped lists,
and groupby over the day component (which sorts its keys ascending) is
modelled by collecting the distinct day keys into a strictly sorted
list and summing per key.
-/

/-- One row of the foods table: columns name, base_amount, unit,
calories, protein_g, fat_g, sat_fat_g (src/app.py lines 19-24). -/
structure FoodDef where
  name : String
  base_amount : ℚ
  unit : String
  calories : ℚ
  protein_g : ℚ
  fat_g : ℚ
  sat_fat_g : ℚ
  deriving DecidableEq

/-- The four scaled nutrient values returned by the scaler. -/
structure Nutrients where
  calories : ℚ
  protein_g : ℚ
  fat_g : ℚ
  sat_fat_g : ℚ
  deriving DecidableEq

/-- One row of the log table: columns date, food, quantity, unit,
base_amount, calories, protein_g, fat_g, sat_fat_g (src/app.py line 33).
The date is a timestamp in days, its floor being the calendar day. -/
structure LogEntry where
  date : ℚ
  food : String
  quantity : ℚ
  unit : String
  base_amount : ℚ
  calories : ℚ
  protein_g : ℚ
  fat_g : ℚ
  sat_fat_g : ℚ
  deriving DecidableEq

/-- The four summed nutrient columns of a daily summary. -/
structure Totals where
  calories : ℚ
  protein_g : ℚ
  fat_g : ℚ
  sat_fat_g : ℚ
  deriving DecidableEq

/-- One output row of the weekly rollup: a calendar day together with the
summed calories, protein_g and sat_fat_g columns for that day. -/
structure DayRow where
  day : ℤ
  calories : ℚ
  protein_g : ℚ
  sat_fat_g : ℚ
  deriving DecidableEq

/-- compute_nutrients (src/app.py lines 52-60): factor = qty / base_amount,
each nutrient field of the result is the corresponding field of the food
row times the factor.  No guard on qty and no guard on base_amount. -/
def compute_nutrients (row : FoodDef) (qty : ℚ) : Nutrients :=
  let factor := qty / row.base_amount
  { calories := row.calories * factor
    protein_g := row.protein_g * factor
    fat_g := row.fat_g * factor
    sat_fat_g := row.sat_fat_g * factor }

/-- daily_summary (src/app.py lines 62-65): day_df is the subframe whose
date column equals pd.to_datetime(day), the midnight timestamp of the
calendar day; totals are the sums of the four nutrient columns of day_df.
The pair (day_df, totals) is returned. -/
def daily_summary (log_df : List LogEntry) (day : ℤ) : List LogEntry × Totals :=
  let day_df := log_df.filter fun e => decide (e.date = (day : ℚ))
  (day_df,
    { calories := (day_df.map LogEntry.calories).sum
      protein_g := (day_df.map LogEntry.protein_g).sum
      fat_g := (day_df.map LogEntry.fat_g).sum
      sat_fat_g := (day_df.map LogEntry.sat_fat_g).sum })

/-- The boolean mask of weekly_summary (src/app.py line 69): start is the
midnight timestamp of end_day minus 6 days, and an entry passes when
start <= date and date <= the midnight timestamp of end_day. -/
def in_window (end_day : ℤ) (e : LogEntry) : Bool :=
  decide ((end_day : ℚ) - 6 ≤ e.date) && decide (e.date ≤ (end_day : ℚ))

/-- Insertion of a day key into a strictly ascending list of day keys,
keeping it strictly ascending and without duplicates. -/
def insertDay (d : ℤ) : List ℤ → List ℤ
  | [] => [d]
  | x :: xs =>
    if d < x then d :: x :: xs
    else if d = x then x :: xs
    else x :: insertDay d xs

/-- The strictly ascending list of the distinct elements of a list of day
keys; models the sorted group keys produced by pandas groupby. -/
def sortedDays (l : List ℤ) : List ℤ := l.foldr insertDay []

/-- Sum of one nutrient column over the rows of a frame whose calendar-day
component (the floor of the timestamp) equals d; models the per-group sum
of groupby(week.date.dt.date). -/
def day_total (week : List LogEntry) (d : ℤ) (f : LogEntry → ℚ) : ℚ :=
  ((week.filter fun e => decide (⌊e.date⌋ = d)).map f).sum

/-- weekly_summary (src/app.py lines 67-72): week is the subframe passing
the in_window mask; by_day groups week by the calendar-day component of the
date column (pandas groupby sorts the keys ascending) and sums the
calories, protein_g and sat_fat_g columns per group.  The pair
(week, by_day) is returned. -/
def weekly_summary (log_df : List LogEntry) (end_day : ℤ) :
    List LogEntry × List DayRow :=
  let week := log_df.filter (in_window end_day)
  let days := sortedDays (week.map fun e => ⌊e.date⌋)
  (week,
    days.map fun d =>
      { day := d
        calories := day_total week d LogEntry.calories
        protein_g := day_total week d LogEntry.protein_g
        sat_fat_g := day_total week d LogEntry.sat_fat_g })

/-- The goal-progress value of the Today tab (src/app.py lines 129-134):
st.progress(min(total/goal, 1.0)), applied in turn to calories, protein_g
and sat_fat_g with their goals. -/
def progress (total goal : ℚ) : ℚ := min (total / goal) 1

/-- The Add-to-log button handler (src/app.py lines 104-115) builds this
row: the midnight timestamp of the chosen date, the chosen food name, the
quantity, the unit and base_amount copied from the food row, and the four
nutrient values returned by compute_nutrients, stored unchanged. -/
def mk_entry (food : FoodDef) (qty : ℚ) (d : ℤ) : LogEntry :=
  let n := compute_nutrients food qty
  { date := (d : ℚ)
    food := food.name
    quantity := qty
    unit := food.unit
    base_amount := food.base_amount
    calories := n.calories
    protein_g := n.protein_g
    fat_g := n.fat_g
    sat_fat_g := n.sat_fat_g }

/-- The Add-to-log button handler (src/app.py lines 104-115): the new log
is pd.concat of the old log and the one new row, i.e. the old log with the
new entry appended at the end; no entry is validated, removed or changed. -/
def add_to_log (log : List LogEntry) (food : FoodDef) (qty : ℚ) (d : ℤ) :
    List LogEntry :=
  log ++ [mk_entry food qty d]

/-- Python str.strip as used on food names, modelled for the space
character (the only whitespace occurring in the names at issue): leading
and trailing spaces are removed. -/
def strip (s : String) : String :=
  ⟨((s.data.dropWhile (· = ' ')).reverse.dropWhile (· = ' ')).reverse⟩

/-- The Add-food button handler (src/app.py lines 175-190): when the
stripped name is nonempty, the new row (with the stripped name) is
concatenated to the foods frame; no uniqueness check on the name is made.
When the stripped name is empty the catalog is unchanged (a warning is
shown). -/
def add_food (foods : List FoodDef) (name : String) (base_amount : ℚ)
    (unit : String) (calories protein fat sat_fat : ℚ) : List FoodDef :=
  if strip name = "" then foods
  else
    foods ++
      [{ name := strip name, base_amount := base_amount, unit := unit,
         calories := calories, protein_g := protein, fat_g := fat,
         sat_fat_g := sat_fat }]

/-- The log upload handler (src/app.py lines 208-212): the uploaded file is
read (dates parsed) and saved as the whole log via save_log, replacing the
prior log unconditionally; no field of any entry is validated. -/
def upload_log (prior new_log : List LogEntry) : List LogEntry := new_log

/-- An IEEE-754-style value: a finite rational, plus or minus infinity, or
not-a-number.  Signed zeros are not modelled; they play no role in the
operations used here. -/
inductive FVal where
  | fin : ℚ → FVal
  | pinf : FVal
  | ninf : FVal
  | nan : FVal
  deriving DecidableEq

/-- Finiteness test of an FVal. -/
def FVal.isFinite : FVal → Bool
  | fin _ => true
  | _ => false

/-- IEEE division on FVal: a finite value divided by zero gives a signed
infinity (nan for 0/0); nan propagates; infinity over infinity is nan. -/
def FVal.div : FVal → FVal → FVal
  | nan, _ => nan
  | _, nan => nan
  | fin a, fin b =>
    if b = 0 then (if 0 < a then pinf else if a < 0 then ninf else nan)
    else fin (a / b)
  | fin _, pinf => fin 0
  | fin _, ninf => fin 0
  | pinf, fin b => if 0 ≤ b then pinf else ninf
  | ninf, fin b => if 0 ≤ b then ninf else pinf
  | pinf, pinf => nan
  | pinf, ninf => nan
  | ninf, pinf => nan
  | ninf, ninf => nan

/-- IEEE multiplication on FVal: nan propagates; an infinity times a finite
value follows the sign rule, and an infinity times zero is nan. -/
def FVal.mul : FVal → FVal → FVal
  | nan, _ => nan
  | _, nan => nan
  | fin a, fin b => fin (a * b)
  | fin a, pinf => if 0 < a then pinf else if a < 0 then ninf else nan
  | fin a, ninf => if 0 < a then ninf else if a < 0 then pinf else nan
  | pinf, fin b => if 0 < b then pinf else if b < 0 then ninf else nan
  | ninf, fin b => if 0 < b then ninf else if b < 0 then pinf else nan
  | pinf, pinf => pinf
  | pinf, ninf => ninf
  | ninf, pinf => ninf
  | ninf, ninf => pinf

/-- The four scaled nutrient values of the scaler in the FVal model. -/
structure NutrientsF where
  calories : FVal
  protein_g : FVal
  fat_g : FVal
  sat_fat_g : FVal
  deriving DecidableEq

/-- compute_nutrients (src/app.py lines 52-60) re-embedded over IEEE-style
values: the same algorithm, factor = qty / base_amount and each field
scaled by the factor, with the special values of floating-point division
kept.  In the source the operands are numpy floats, so a zero base_amount
produces infinities and nans with no exception raised. -/
def compute_nutrientsF (row : FoodDef) (qty : ℚ) : NutrientsF :=
  let factor := FVal.div (FVal.fin qty) (FVal.fin row.base_amount)
  { calories := FVal.mul (FVal.fin row.calories) factor
    protein_g := FVal.mul (FVal.fin row.protein_g) factor
    fat_g := FVal.mul (FVal.fin row.fat_g) factor
    sat_fat_g := FVal.mul (FVal.fin row.sat_fat_g) factor }

/-- A log row in the FVal model: as LogEntry, with the four stored nutrient
values IEEE-style. -/
structure LogEntryF where
  date : ℚ
  food : String
  quantity : ℚ
  unit : String
  base_amount : ℚ
  calories : FVal
  protein_g : FVal
  fat_g : FVal
  sat_fat_g : FVal
  deriving DecidableEq

/-- The row built by the Add-to-log button handler in the FVal model: the
values returned by compute_nutrientsF are stored unchanged, finite or not. -/
def mk_entry_f (food : FoodDef) (qty : ℚ) (d : ℤ) : LogEntryF :=
  let n := compute_nutrientsF food qty
  { date := (d : ℚ)
    food := food.name
    quantity := qty
    unit := food.unit
    base_amount := food.base_amount
    calories := n.calories
    protein_g := n.protein_g
    fat_g := n.fat_g
    sat_fat_g := n.sat_fat_g }

/-- The Add-to-log button handler in the FVal model: concatenation of the
new row, with no check on the stored values. -/
def add_to_log_f (log : List LogEntryF) (food : FoodDef) (qty : ℚ) (d : ℤ) :
    List LogEntryF :=
  log ++ [mk_entry_f food qty d]

/-- The first seed food written when foods.csv is absent
(src/app.py line 20). -/
def chicken_breast_raw : FoodDef :=
  { name := "Chicken breast (raw)", base_amount := 100, unit := "g",
    calories := 165, protein_g := 31, fat_g := 18/5, sat_fat_g := 1 }

/-- The second seed food written when foods.csv is absent
(src/app.py line 21). -/
def rolled_oats_dry : FoodDef :=
  { name := "Rolled oats (dry)", base_amount := 100, unit := "g",
    calories := 379, protein_g := 13, fat_g := 7, sat_fat_g := 6/5 }

/-- The seed foods catalog written when foods.csv is absent
(src/app.py lines 19-23). -/
def seed_foods : List FoodDef := [chicken_breast_raw, rolled_oats_dry]

/-- A structurally complete uploaded entry with a negative quantity. -/
def bad_entry : LogEntry :=
  { date := 2, food := "Rolled oats (dry)", quantity := -5, unit := "g",
    base_amount := 100, calories := 10, protein_g := 1, fat_g := 1,
    sat_fat_g := 1 }

/-- A food definition whose base_amount is zero. -/
def zero_base_food : FoodDef :=
  { name := "Mystery item", base_amount := 0, unit := "unit",
    calories := 5, protein_g := 0, fat_g := 1, sat_fat_g := 0 }

/-- A concrete log entry on day 0 (midnight timestamp). -/
def entry_day0 : LogEntry :=
  { date := 0, food := "Chicken breast (raw)", quantity := 100, unit := "g",
    base_amount := 100, calories := 100, protein_g := 10, fat_g := 5,
    sat_fat_g := 2 }

/-- A concrete log entry on day 3 (midnight timestamp). -/
def entry_day3 : LogEntry :=
  { date := 3, food := "Rolled oats (dry)", quantity := 50, unit := "g",
    base_amount := 100, calories := 200, protein_g := 20, fat_g := 8,
    sat_fat_g := 4 }

/-- A concrete log entry at noon of day 3 (timestamp 7/2). -/
def entry_day3_noon : LogEntry :=
  { date := 7/2, food := "Rolled oats (dry)", quantity := 25, unit := "g",
    base_amount := 100, calories := 300, protein_g := 30, fat_g := 9,
    sat_fat_g := 5 }

/-- A concrete log entry on day 10 (midnight timestamp). -/
def entry_day10 : LogEntry :=
  { date := 10, food := "Chicken breast (raw)", quantity := 200, unit := "g",
    base_amount := 100, calories := 400, protein_g := 40, fat_g := 12,
    sat_fat_g := 6 }

/-- A concrete four-entry log used to instantiate the theorems. -/
def demo_log : List LogEntry :=
  [entry_day0, entry_day3, entry_day3_noon, entry_day10]

theorem weekly_summary_fst (log : List LogEntry) (w : ℤ) :
    (weekly_summary log w).1 = log.filter (in_window w) := rfl

theorem weekly_summary_snd (log : List LogEntry) (w : ℤ) :
    (weekly_summary log w).2 =
      (sortedDays ((log.filter (in_window w)).map fun e => ⌊e.date⌋)).map
        fun d =>
          { day := d
            calories := day_total (log.filter (in_window w)) d LogEntry.calories
            protein_g := day_total (log.filter (in_window w)) d LogEntry.protein_g
            sat_fat_g := day_total (log.filter (in_window w)) d LogEntry.sat_fat_g } := rfl

theorem daily_summary_fst (log : List LogEntry) (d : ℤ) :
    (daily_summary log d).1 = log.filter fun e => decide (e.date = (d : ℚ)) := rfl

theorem mem_insertDay {a d : ℤ} : ∀ {l : List ℤ}, a ∈ insertDay d l ↔ a = d ∨ a ∈ l
  | [] => by simp [insertDay]
  | x :: xs => by
    by_cases h1 : d < x
    · rw [insertDay, if_pos h1]
      simp
    · by_cases h2 : d = x
      · subst h2
        rw [insertDay, if_neg h1, if_pos rfl]
        simp only [List.mem_cons]
        tauto
      · rw [insertDay, if_neg h1, if_neg h2]
        simp only [List.mem_cons]
        rw [mem_insertDay]
        tauto

theorem sorted_insertDay {d : ℤ} :
    ∀ {l : List ℤ}, l.Sorted (· < ·) → (insertDay d l).Sorted (· < ·)
  | [], _ => by simp [insertDay]
  | x :: xs, h => by
    rw [List.sorted_cons] at h
    by_cases h1 : d < x
    · rw [insertDay, if_pos h1, List.sorted_cons]
      refine ⟨?_, by rw [List.sorted_cons]; exact h⟩
      intro b hb
      rcases List.mem_cons.mp hb with hb | hb
      · exact hb ▸ h1
      · exact h1.trans (h.1 b hb)
    · by_cases h2 : d = x
      · rw [insertDay, if_neg h1, if_pos h2, List.sorted_cons]
        exact h
      · rw [insertDay, if_neg h1, if_neg h2, List.sorted_cons]
        refine ⟨?_, sorted_insertDay h.2⟩
        intro b hb
        rcases mem_insertDay.mp hb with hb | hb
        · subst hb
          omega
        · exact h.1 b hb

theorem mem_sortedDays {a : ℤ} : ∀ {l : List ℤ}, a ∈ sortedDays l ↔ a ∈ l
  | [] => by simp [sortedDays]
  | x :: xs => by
    show a ∈ insertDay x (sortedDays xs) ↔ _
    rw [mem_insertDay, mem_sortedDays]
    simp

theorem sorted_sortedDays : ∀ (l : List ℤ), (sortedDays l).Sorted (· < ·)
  | [] => by simp [sortedDays]
  | x :: xs => sorted_insertDay (sorted_sortedDays xs)

theorem mem_week {log : List LogEntry} {w : ℤ} {e : LogEntry} :
    e ∈ (weekly_summary log w).1 ↔
      e ∈ log ∧ (w : ℚ) - 6 ≤ e.date ∧ e.date ≤ (w : ℚ) := by
  rw [weekly_summary_fst, List.mem_filter, in_window]
  simp [and_assoc]

theorem week_days_eq (log : List LogEntry) (w : ℤ) :
    (weekly_summary log w).2.map DayRow.day =
      sortedDays ((log.filter (in_window w)).map fun e => ⌊e.date⌋) := by
  rw [weekly_summary_snd, List.map_map]
  have h : (DayRow.day ∘ fun d =>
      ({ day := d
         calories := day_total (log.filter (in_window w)) d LogEntry.calories
         protein_g := day_total (log.filter (in_window w)) d LogEntry.protein_g
         sat_fat_g := day_total (log.filter (in_window w)) d LogEntry.sat_fat_g } :
        DayRow)) = id := rfl
  rw [h, List.map_id]

theorem mem_week_days {log : List LogEntry} {w d : ℤ} :
    d ∈ (weekly_summary log w).2.map DayRow.day ↔
      ∃ e, e ∈ (weekly_summary log w).1 ∧ ⌊e.date⌋ = d := by
  rw [week_days_eq, mem_sortedDays, List.mem_map, weekly_summary_fst]

theorem week_rows_sums {log : List LogEntry} {w : ℤ} {r : DayRow}
    (hr : r ∈ (weekly_summary log w).2) :
    r.calories = day_total (weekly_summary log w).1 r.day LogEntry.calories
  ∧ r.protein_g = day_total (weekly_summary log w).1 r.day LogEntry.protein_g
  ∧ r.sat_fat_g = day_total (weekly_summary log w).1 r.day LogEntry.sat_fat_g := by
  rw [weekly_summary_snd] at hr
  rcases List.mem_map.mp hr with ⟨d, _, rfl⟩
  exact ⟨rfl, rfl, rfl⟩

/-- C1: for base_amount > 0 and qty > 0 each field of the scaler output is
the corresponding food field multiplied by qty / base_amount, exactly, with
no rounding anywhere in the scaler (the model computes in ℚ and the
equality is exact). -/
theorem compute_nutrients_scales (f : FoodDef) (q : ℚ)
    (hb : 0 < f.base_amount) (hq : 0 < q) :
    (compute_nutrients f q).calories = f.calories * q / f.base_amount
  ∧ (compute_nutrients f q).protein_g = f.protein_g * q / f.base_amount
  ∧ (compute_nutrients f q).fat_g = f.fat_g * q / f.base_amount
  ∧ (compute_nutrients f q).sat_fat_g = f.sat_fat_g * q / f.base_amount := by
  refine ⟨?_, ?_, ?_, ?_⟩ <;> simp [compute_nutrients, mul_div_assoc]

/-- Concrete instance of compute_nutrients_scales: the seed food
"Rolled oats (dry)" (base 100 g, 379 kcal) at quantity 50. -/
theorem compute_nutrients_scales_witness :
    (0:ℚ) < 100 ∧ (0:ℚ) < 50 ∧
    (compute_nutrients
      { name := "Rolled oats (dry)", base_amount := 100, unit := "g",
        calories := 379, protein_g := 13, fat_g := 7, sat_fat_g := 6/5 }
      50).calories = 379 * 50 / 100 :=
  ⟨by norm_num, by norm_num,
    (compute_nutrients_scales
      { name := "Rolled oats (dry)", base_amount := 100, unit := "g",
        calories := 379, protein_g := 13, fat_g := 7, sat_fat_g := 6/5 }
      50 (by norm_num) (by norm_num)).1⟩

/-- C2: the weekly rollup filters the log to exactly the entries whose date
lies in the inclusive window from 6 days before the reference day to the
reference day (as midnight timestamps); it produces one row per distinct
calendar day present in the filtered log (the day keys are strictly
ascending, hence without duplicates, and a day appears iff some filtered
entry falls on it; no zero row is synthesized); each row carries the sums
of calories, protein_g and sat_fat_g over that day. -/
theorem weekly_summary_spec (log : List LogEntry) (w : ℤ) :
    (∀ e, e ∈ (weekly_summary log w).1 ↔
        e ∈ log ∧ (w : ℚ) - 6 ≤ e.date ∧ e.date ≤ (w : ℚ))
  ∧ ((weekly_summary log w).2.map DayRow.day).Sorted (· < ·)
  ∧ (∀ d : ℤ, d ∈ (weekly_summary log w).2.map DayRow.day ↔
        ∃ e, e ∈ (weekly_summary log w).1 ∧ ⌊e.date⌋ = d)
  ∧ ∀ r ∈ (weekly_summary log w).2,
      r.calories = day_total (weekly_summary log w).1 r.day LogEntry.calories
    ∧ r.protein_g = day_total (weekly_summary log w).1 r.day LogEntry.protein_g
    ∧ r.sat_fat_g = day_total (weekly_summary log w).1 r.day LogEntry.sat_fat_g := by
  refine ⟨fun e => mem_week, ?_, fun d => mem_week_days,
    fun r hr => week_rows_sums hr⟩
  rw [week_days_eq]
  exact sorted_sortedDays _

/-- Concrete instance of weekly_summary_spec on demo_log with reference
day 3: the day-3 row sums the calories of the filtered entries of day 3,
and day 3 occurs among the row keys. -/
theorem weekly_summary_spec_witness :
    ({ day := 3, calories := 200, protein_g := 20, sat_fat_g := 4 } :
        DayRow).calories
      = day_total (weekly_summary demo_log 3).1 3 LogEntry.calories
  ∧ (3 : ℤ) ∈ (weekly_summary demo_log 3).2.map DayRow.day := by
  have h := weekly_summary_spec demo_log 3
  have hmem : ({ day := 3, calories := 200, protein_g := 20, sat_fat_g := 4 } :
      DayRow) ∈ (weekly_summary demo_log 3).2 := by
    rw [weekly_summary_snd]
    norm_num [demo_log, in_window, List.filter_cons, entry_day0, entry_day3,
      entry_day3_noon, entry_day10, sortedDays, insertDay, day_total,
      Int.floor_eq_iff]
  refine ⟨(h.2.2.2 _ hmem).1, (h.2.2.1 3).mpr ⟨entry_day3, mem_week.mpr
    ⟨by simp [demo_log], by norm_num [entry_day3], by norm_num [entry_day3]⟩,
    by norm_num [entry_day3, Int.floor_eq_iff]⟩⟩

/-- C3: when no entry of the log falls on the calendar day d, the daily
summary returns all-zero totals in all four nutrient fields; the function
is total, so no error is possible. -/
theorem daily_summary_no_entries (log : List LogEntry) (d : ℤ)
    (h : ∀ e ∈ log, ⌊e.date⌋ ≠ d) :
    (daily_summary log d).2 =
      { calories := 0, protein_g := 0, fat_g := 0, sat_fat_g := 0 } := by
  have hfil : (log.filter fun e => decide (e.date = (d : ℚ))) = [] := by
    rw [List.filter_eq_nil_iff]
    intro e he
    simp only [decide_eq_true_eq]
    intro hd
    exact h e he (by rw [hd, Int.floor_intCast])
  simp [daily_summary, hfil]

/-- Concrete instance of daily_summary_no_entries: demo_log has no entry
on day 5, and the daily summary for day 5 is all zeros. -/
theorem daily_summary_no_entries_witness :
    (daily_summary demo_log 5).2 =
      { calories := 0, protein_g := 0, fat_g := 0, sat_fat_g := 0 } :=
  daily_summary_no_entries demo_log 5 (by
    norm_num [demo_log, entry_day0, entry_day3, entry_day3_noon, entry_day10,
      Int.floor_eq_iff])

/-- C4: for nonnegative totals and a positive goal the displayed progress
value equals min(1, totals/goal), which is the raw ratio clamped to the
closed interval from 0 to 1: it is between 0 and 1, equals the raw ratio
when that ratio is at most 1, and equals 1 otherwise. -/
theorem progress_min_clamp (total goal : ℚ) (ht : 0 ≤ total) (hg : 0 < goal) :
    progress total goal = min 1 (total / goal)
  ∧ 0 ≤ progress total goal
  ∧ progress total goal ≤ 1
  ∧ (total ≤ goal → progress total goal = total / goal)
  ∧ (goal ≤ total → progress total goal = 1) := by
  refine ⟨min_comm _ _, le_min (div_nonneg ht hg.le) zero_le_one,
    min_le_right _ _, fun hle => min_eq_left ((div_le_one hg).mpr hle),
    fun hge => min_eq_right ((one_le_div hg).mpr hge)⟩

/-- Concrete instance of progress_min_clamp: totals 900 against goal 1800
is displayed as min(1, 900/1800). -/
theorem progress_min_clamp_witness :
    (0 : ℚ) ≤ 900 ∧ (0 : ℚ) < 1800 ∧
      progress 900 1800 = min 1 (900 / 1800) :=
  ⟨by norm_num, by norm_num,
    (progress_min_clamp 900 1800 (by norm_num) (by norm_num)).1⟩

/-- C5 counterexample: uploading a log containing an entry with negative
quantity is not rejected: the uploaded entries fully replace the log (the
invalid entry included) and the prior log is not preserved, refuting the
claimed validate-or-reject behavior. -/
theorem upload_log_no_validation_counterexample :
    bad_entry.quantity < 0
  ∧ upload_log demo_log [bad_entry] = [bad_entry]
  ∧ upload_log demo_log [bad_entry] ≠ demo_log := by
  refine ⟨by norm_num [bad_entry], rfl, ?_⟩
  simp [upload_log, demo_log]

/-- C5 amended: the bulk replacement performs no validation at all: for
every prior log and every uploaded entry collection the log is
unconditionally and fully replaced by the uploaded entries. -/
theorem upload_log_replaces_unconditionally (prior new_log : List LogEntry) :
    upload_log prior new_log = new_log := rfl

/-- C6 counterexample: at quantity -50 (which is not positive) the scaler
does not fail: it returns the linearly scaled nutrient vector of the seed
food Chicken breast, refuting the claimed InvalidQuantityError. -/
theorem compute_nutrients_negative_qty_counterexample :
    (-50 : ℚ) ≤ 0
  ∧ compute_nutrients chicken_breast_raw (-50) =
      { calories := -165/2, protein_g := -31/2, fat_g := -9/5,
        sat_fat_g := -1/2 } := by
  refine ⟨by norm_num, ?_⟩
  norm_num [compute_nutrients, chicken_breast_raw, Nutrients.mk.injEq]

/-- C6 amended: the scaler has no quantity guard: for any quantity,
including non-positive ones, it returns each nutrient field multiplied by
quantity / base_amount. -/
theorem compute_nutrients_no_qty_guard (f : FoodDef) (q : ℚ)
    (hq : q ≤ 0) (hb : 0 < f.base_amount) :
    (compute_nutrients f q).calories = f.calories * q / f.base_amount
  ∧ (compute_nutrients f q).protein_g = f.protein_g * q / f.base_amount
  ∧ (compute_nutrients f q).fat_g = f.fat_g * q / f.base_amount
  ∧ (compute_nutrients f q).sat_fat_g = f.sat_fat_g * q / f.base_amount := by
  refine ⟨?_, ?_, ?_, ?_⟩ <;> simp [compute_nutrients, mul_div_assoc]

/-- Concrete instance of compute_nutrients_no_qty_guard at quantity -50 on
the seed food Chicken breast. -/
theorem compute_nutrients_no_qty_guard_witness :
    (-50 : ℚ) ≤ 0 ∧ (0 : ℚ) < chicken_breast_raw.base_amount ∧
      (compute_nutrients chicken_breast_raw (-50)).calories
        = chicken_breast_raw.calories * (-50) / chicken_breast_raw.base_amount :=
  ⟨by norm_num, by norm_num [chicken_breast_raw],
    (compute_nutrients_no_qty_guard chicken_breast_raw (-50) (by norm_num)
      (by norm_num [chicken_breast_raw])).1⟩

/-- C7: the claimed DuplicateNameError matches the spec and the intended
contract, but the Add-food handler has no uniqueness check: adding a food
whose (stripped) name is already in the catalog appends it, and the
catalog then holds two definitions with the same name.  Here the seed
catalog, which already holds "Rolled oats (dry)", receives a second food
of that name. -/
theorem add_food_allows_duplicate_name :
    (add_food seed_foods "Rolled oats (dry)" 50 "g" 190 7 4 1).map FoodDef.name
      = ["Chicken breast (raw)", "Rolled oats (dry)", "Rolled oats (dry)"]
  ∧ ((add_food seed_foods "Rolled oats (dry)" 50 "g" 190 7 4 1).map
      FoodDef.name).count "Rolled oats (dry)" = 2 := by
  constructor <;> rfl

/-- C8: the Add-to-log operation always succeeds (it is total), returns
the old log with exactly the one new entry appended at the end, leaves
the prefix of the old length unchanged entry-for-entry and in order, and
grows the length by exactly one. -/
theorem add_to_log_appends (log : List LogEntry) (food : FoodDef) (qty : ℚ)
    (d : ℤ) :
    add_to_log log food qty d = log ++ [mk_entry food qty d]
  ∧ (add_to_log log food qty d).take log.length = log
  ∧ (add_to_log log food qty d).length = log.length + 1 := by
  refine ⟨rfl, ?_, by simp [add_to_log]⟩
  rw [add_to_log]
  exact List.take_left log [mk_entry food qty d]

theorem mem_daily {log : List LogEntry} {d : ℤ} {e : LogEntry} :
    e ∈ (daily_summary log d).1 ↔ e ∈ log ∧ e.date = (d : ℚ) := by
  rw [daily_summary_fst, List.mem_filter]
  simp

theorem midnight_filter_eq {log : List LogEntry} {d w : ℤ}
    (hall : ∀ x ∈ log, ∃ k : ℤ, x.date = (k : ℚ))
    (h1 : w - 6 ≤ d) (h2 : d ≤ w) :
    (log.filter (in_window w)).filter (fun e => decide (⌊e.date⌋ = d))
      = log.filter fun e => decide (e.date = (d : ℚ)) := by
  rw [List.filter_filter]
  apply List.filter_congr
  intro x hx
  obtain ⟨k, hk⟩ := hall x hx
  rw [Bool.eq_iff_iff]
  simp only [in_window, hk, Int.floor_intCast, Bool.and_eq_true,
    decide_eq_true_eq, Int.cast_inj]
  constructor
  · rintro ⟨rfl, _⟩
    rfl
  · rintro rfl
    refine ⟨rfl, ?_, ?_⟩
    · calc ((w : ℚ) - 6) = ((w - 6 : ℤ) : ℚ) := by push_cast; ring
        _ ≤ ((k : ℤ) : ℚ) := by exact_mod_cast h1
    · exact_mod_cast h2

/-- C9: the daily summary matches entries by exact timestamp equality with
the midnight timestamp of the requested day (first part); hence an entry
whose stored date has a nonzero time-of-day within calendar day d is
excluded from the daily summary of d, while a weekly rollup whose window
covers the timestamp (end day w with d < w and w at most d + 6) admits the
entry and produces a day-d row, because the rollup groups by the
calendar-day component only (second part); when every stored date is a
midnight timestamp the two aggregates agree: the daily totals equal the
day-d group sums of the rollup on the three shared columns (third part). -/
theorem daily_midnight_weekly_calendar :
    (∀ (log : List LogEntry) (d : ℤ) (e : LogEntry),
        e ∈ (daily_summary log d).1 ↔ e ∈ log ∧ e.date = (d : ℚ))
  ∧ (∀ (log : List LogEntry) (d : ℤ) (e : LogEntry), e ∈ log →
      ⌊e.date⌋ = d → e.date ≠ (d : ℚ) →
        e ∉ (daily_summary log d).1
      ∧ ∀ w : ℤ, d < w → w ≤ d + 6 →
          e ∈ (weekly_summary log w).1
        ∧ d ∈ (weekly_summary log w).2.map DayRow.day)
  ∧ (∀ (log : List LogEntry) (d w : ℤ),
      (∀ x ∈ log, ∃ k : ℤ, x.date = (k : ℚ)) → w - 6 ≤ d → d ≤ w →
        (daily_summary log d).2.calories
          = day_total (weekly_summary log w).1 d LogEntry.calories
      ∧ (daily_summary log d).2.protein_g
          = day_total (weekly_summary log w).1 d LogEntry.protein_g
      ∧ (daily_summary log d).2.sat_fat_g
          = day_total (weekly_summary log w).1 d LogEntry.sat_fat_g) := by
  refine ⟨fun log d e => mem_daily, ?_, ?_⟩
  · intro log d e he hfloor hnoon
    have hbounds := (Int.floor_eq_iff).mp hfloor
    constructor
    · intro hmem
      exact hnoon (mem_daily.mp hmem).2
    · intro w hdw hw6
      have hwin : e ∈ (weekly_summary log w).1 := by
        refine mem_week.mpr ⟨he, ?_, ?_⟩
        · calc ((w : ℚ) - 6) ≤ ((d : ℤ) : ℚ) := by
                rw [sub_le_iff_le_add]
                exact_mod_cast hw6
            _ ≤ e.date := hbounds.1
        · refine le_of_lt (lt_of_lt_of_le hbounds.2 ?_)
          have hles : (d + 1 : ℤ) ≤ w := hdw
          exact_mod_cast hles
      exact ⟨hwin, mem_week_days.mpr ⟨e, hwin, hfloor⟩⟩
  · intro log d w hall h1 h2
    refine ⟨?_, ?_, ?_⟩ <;>
      simp only [day_total, weekly_summary_fst,
        midnight_filter_eq hall h1 h2] <;> rfl

/-- Concrete instance of daily_midnight_weekly_calendar: the noon entry of
day 3 in demo_log is excluded from the daily summary of day 3 but admitted
by the weekly rollup ending on day 4, which produces a day-3 row. -/
theorem daily_midnight_weekly_calendar_witness :
    entry_day3_noon ∉ (daily_summary demo_log 3).1
  ∧ entry_day3_noon ∈ (weekly_summary demo_log 4).1
  ∧ (3 : ℤ) ∈ (weekly_summary demo_log 4).2.map DayRow.day := by
  have h := daily_midnight_weekly_calendar.2.1 demo_log 3 entry_day3_noon
    (by simp [demo_log]) (by norm_num [entry_day3_noon, Int.floor_eq_iff])
    (by norm_num [entry_day3_noon])
  exact ⟨h.1, (h.2 4 (by norm_num) (by norm_num)).1,
    (h.2 4 (by norm_num) (by norm_num)).2⟩

theorem fin_mul_nonfinite (a : ℚ) (v : FVal) (hv : v.isFinite = false) :
    (FVal.mul (FVal.fin a) v).isFinite = false := by
  cases v with
  | fin b => simp [FVal.isFinite] at hv
  | pinf =>
    simp only [FVal.mul]
    split_ifs <;> rfl
  | ninf =>
    simp only [FVal.mul]
    split_ifs <;> rfl
  | nan => rfl

theorem div_fin_zero_nonfinite (q : ℚ) :
    (FVal.div (FVal.fin q) (FVal.fin 0)).isFinite = false := by
  simp only [FVal.div, if_pos rfl]
  split_ifs <;> rfl

theorem div_fin_zero_pos (q : ℚ) (hq : 0 < q) :
    FVal.div (FVal.fin q) (FVal.fin 0) = FVal.pinf := by
  simp [FVal.div, hq]

theorem fin_mul_pinf_pos (a : ℚ) (ha : 0 < a) :
    FVal.mul (FVal.fin a) FVal.pinf = FVal.pinf := by
  simp [FVal.mul, ha]

theorem fin_mul_pinf_zero :
    FVal.mul (FVal.fin 0) FVal.pinf = FVal.nan := by
  norm_num [FVal.mul]

/-- C10: when the base_amount of a food is zero the scaler raises nothing
(the embedded function is total, matching the numpy semantics of the
source, where dividing a float by a zero base only emits a warning) and
every output field is a non-finite value; when moreover the quantity is
positive, each field with a positive per-base value is plus infinity and
each field with a zero per-base value is nan; and the Add-to-log handler
appends a row carrying exactly these stored values, with no check. -/
theorem compute_nutrientsF_zero_base (f : FoodDef) (q : ℚ)
    (hb : f.base_amount = 0) :
    ((compute_nutrientsF f q).calories.isFinite = false
      ∧ (compute_nutrientsF f q).protein_g.isFinite = false
      ∧ (compute_nutrientsF f q).fat_g.isFinite = false
      ∧ (compute_nutrientsF f q).sat_fat_g.isFinite = false)
  ∧ (0 < q →
      ((0 < f.calories → (compute_nutrientsF f q).calories = FVal.pinf)
        ∧ (f.calories = 0 → (compute_nutrientsF f q).calories = FVal.nan))
    ∧ ((0 < f.protein_g → (compute_nutrientsF f q).protein_g = FVal.pinf)
        ∧ (f.protein_g = 0 → (compute_nutrientsF f q).protein_g = FVal.nan))
    ∧ ((0 < f.fat_g → (compute_nutrientsF f q).fat_g = FVal.pinf)
        ∧ (f.fat_g = 0 → (compute_nutrientsF f q).fat_g = FVal.nan))
    ∧ ((0 < f.sat_fat_g → (compute_nutrientsF f q).sat_fat_g = FVal.pinf)
        ∧ (f.sat_fat_g = 0 → (compute_nutrientsF f q).sat_fat_g = FVal.nan)))
  ∧ (∀ (logF : List LogEntryF) (d : ℤ),
      add_to_log_f logF f q d = logF ++ [mk_entry_f f q d]
    ∧ (mk_entry_f f q d).calories = (compute_nutrientsF f q).calories
    ∧ (mk_entry_f f q d).protein_g = (compute_nutrientsF f q).protein_g
    ∧ (mk_entry_f f q d).fat_g = (compute_nutrientsF f q).fat_g
    ∧ (mk_entry_f f q d).sat_fat_g = (compute_nutrientsF f q).sat_fat_g) := by
  refine ⟨?_, ?_, fun logF d => ⟨rfl, rfl, rfl, rfl, rfl⟩⟩
  · simp only [compute_nutrientsF, hb]
    exact ⟨fin_mul_nonfinite _ _ (div_fin_zero_nonfinite q),
      fin_mul_nonfinite _ _ (div_fin_zero_nonfinite q),
      fin_mul_nonfinite _ _ (div_fin_zero_nonfinite q),
      fin_mul_nonfinite _ _ (div_fin_zero_nonfinite q)⟩
  · intro hq
    simp only [compute_nutrientsF, hb, div_fin_zero_pos q hq]
    refine ⟨⟨fun h => fin_mul_pinf_pos _ h, fun h => ?_⟩,
      ⟨fun h => fin_mul_pinf_pos _ h, fun h => ?_⟩,
      ⟨fun h => fin_mul_pinf_pos _ h, fun h => ?_⟩,
      ⟨fun h => fin_mul_pinf_pos _ h, fun h => ?_⟩⟩ <;>
      rw [h] <;> exact fin_mul_pinf_zero

/-- Concrete instance of compute_nutrientsF_zero_base: a food with
base_amount 0, calories 5 and protein 0 at quantity 2 yields a non-finite
calorie value, namely plus infinity, and nan protein. -/
theorem compute_nutrientsF_zero_base_witness :
    (compute_nutrientsF zero_base_food 2).calories.isFinite = false
  ∧ (compute_nutrientsF zero_base_food 2).calories = FVal.pinf
  ∧ (compute_nutrientsF zero_base_food 2).protein_g = FVal.nan := by
  have h := compute_nutrientsF_zero_base zero_base_food 2 rfl
  exact ⟨h.1.1, (h.2.1 (by norm_num)).1.1 (by norm_num [zero_base_food]),
    (h.2.1 (by norm_num)).2.1.2 rfl⟩
